import Mathlib

/-!
# pagerduty-short-circuiter: the `alerts` command and the page/footer controller

A shallow embedding of

* `cmd/kite/alerts/cmd.go`  (`alertsHandler`),
* `pkg/ui/tui.go`           (`InitAlertsUI`, `InitIncidentsUI`, `initFooter`, `Init`, `StartApp`),
* `pkg/ui/constants.go`     (page titles, table titles, footer texts),
* `pkg/ui/metadata.go`      (`SetAlertsSecondaryData`).

Effects of the handler (remote calls, printing, process exit, UI start-up) are made
explicit: the handler is a pure function from an environment of collaborator answers to
the list of effects it performs, the way it ends, and the final `TUI` value.
-/

namespace Kite

/-! ## Go library functions used by the sources -/

/-- Go `unicode.IsSpace`: the Latin-1 spaces and the code points with the Unicode
White_Space property. -/
def isSpace (c : Char) : Bool :=
  let n := c.toNat
  n == 0x09 || n == 0x0A || n == 0x0B || n == 0x0C || n == 0x0D || n == 0x20 ||
  n == 0x85 || n == 0xA0 || n == 0x1680 || (0x2000 ≤ n && n ≤ 0x200A) ||
  n == 0x2028 || n == 0x2029 || n == 0x202F || n == 0x205F || n == 0x3000

/-- Go `strings.TrimSpace`: all leading and trailing white space removed. -/
def TrimSpace (s : String) : String :=
  String.mk (((s.toList.dropWhile isSpace).reverse.dropWhile isSpace).reverse)

/-- Go `strings.HasPrefix` on character lists. -/
def hasPrefixChars : List Char → List Char → Bool
  | _, [] => true
  | [], _ :: _ => false
  | c :: cs, p :: ps => c == p && hasPrefixChars cs ps

/-- Go `strings.Contains` on character lists: `sub` starts at some position of `s`. -/
def containsChars : List Char → List Char → Bool
  | [], sub => hasPrefixChars [] sub
  | c :: cs, sub => hasPrefixChars (c :: cs) sub || containsChars cs sub

/-- Go `strings.Contains(s, substr)`. -/
def Contains (s substr : String) : Bool :=
  containsChars s.toList substr.toList

/-- Go `strconv.Itoa` on a slice length (never negative): the decimal rendering. -/
def Itoa (n : Nat) : String := Nat.repr n

/-! ## pkg/ui/constants.go -/

def AlertsTableTitle : String := "[ ALERTS ]"
def TrigerredAlertsTableTitle : String := "[ TRIGERRED ALERTS ]"
def IncidentsTableTitle : String := "[ TRIGERRED INCIDENTS ]"
def AckIncidentsTableTitle : String := "[ ACKNOWLEDGED INCIDENTS ]"

def AlertsPageTitle : String := "Alerts"
def TrigerredAlertsPageTitle : String := "Trigerred"
def IncidentsPageTitle : String := "Incidents"
def AckIncidentsPageTitle : String := "AckIncidents"
def OncallPageTitle : String := "Oncall Layer"

def FooterText : String := "[Esc] Go Back"
def FooterTextAlerts : String :=
  "[R] Refresh Alerts | [1] Acknowledged Incidents | [2] Trigerred Incidents\n" ++ FooterText
def FooterTextTrigerredAlerts : String :=
  "[1] Acknowledged Incidents | [2] Trigerred Incidents\n" ++ FooterText
def FooterTextIncidents : String :=
  "[ENTER] Select Incident | [CTRL+A] Acknowledge Incidents\n" ++ FooterText
def FooterTextOncall : String :=
  "[N] Your Next Oncall Schedule | [A] All Teams Oncall | [<-] Previous Layer Oncall | [->] Next Layer Oncall \n" ++ FooterText

/-! ## Records exchanged with the collaborators -/

/-- A Go `error` value, identified by its message. -/
structure Error where
  msg : String
deriving DecidableEq, Repr

/-- Go `fmt.Errorf` with a constant format string. -/
def Errorf (msg : String) : Error := ⟨msg⟩

/-- The package `pkg/constants` is not among the sources: its constants are parameters. -/
structure Constants where
  IncidentsLimit : Nat
  StatusLow : String
  StatusHigh : String
  StatusTriggered : String
  StatusAcknowledged : String
  SilentTest : String
deriving DecidableEq, Repr

/-- The fields of `pagerduty.ListIncidentsOptions` that `alertsHandler` writes; a nil slice is
the empty list. -/
structure ListIncidentsOptions where
  Limit : Nat := 0
  Urgencies : List String := []
  TeamIDs : List String := []
  UserIDs : List String := []
  Statuses : List String := []
deriving DecidableEq, Repr

/-- The fields of `pagerduty.Incident` the sources read or write. -/
structure Incident where
  Id : String
  Title : String := ""
  Status : String := ""
  Urgency : String := ""
deriving DecidableEq, Repr

/-- The alert record of `pkg/pdcli/alerts` (not among the sources), with the fields the
specification lists for it. -/
structure Alert where
  IncidentID : String
  AlertID : String
  ClusterName : String
  ClusterID : String
  Name : String
  Status : String
  Severity : String
deriving DecidableEq, Repr

/-- The fields of `pagerduty.User` the handler reads. -/
structure User where
  ID : String
  Name : String
deriving DecidableEq, Repr

/-- The fields of the persisted configuration the handler reads. -/
structure Config where
  TeamID : String
  Team : String
deriving DecidableEq, Repr

/-- The command-line options of `cmd.go` (`var options struct`). -/
structure Options where
  assignment : String := "self"
  columns : String := "incident.id,alert.id,cluster.name,alert,cluster.id,status,severity"
deriving DecidableEq, Repr

/-! ## pkg/ui: pages, footer and tables -/

/-- One entry of `tview.Pages`: a named widget with its resize and visibility flags. -/
structure Page (Tbl : Type) where
  Name : String
  Item : Tbl
  Resize : Bool
  Visible : Bool
deriving DecidableEq, Repr

/-- The table builders of `pkg/ui/table.go` and `pkg/pdcli/alerts`, which are not among the
sources: `GetTableData` projects alerts onto the chosen columns, `InitTable` builds the
table widget from headers, rows, two flags and a title. -/
structure TableKit (Tbl : Type) where
  GetTableData : List Alert → String → List String × List (List String)
  InitTable : List String → List (List String) → Bool → Bool → String → Tbl

/-- The part of `ui.TUI` that the embedded functions read or write, with every widget
allocated (the state from `Init` onwards): `Pages` is the page list of the `tview.Pages`
widget and `Footer` the text of the footer view. `AssginedTo`, `FetchedAlerts`,
`HasEmulator` and `secondaryText` are the fields `cmd.go` and `metadata.go` use. -/
structure TUI (Tbl : Type) where
  Table : Option Tbl := none
  IncidentsTable : Option Tbl := none
  Pages : List (Page Tbl) := []
  Footer : String := ""
  FrontPage : String := ""
  IncidentOpts : ListIncidentsOptions := {}
  AssignedTo : String := ""
  AssginedTo : String := ""
  Username : String := ""
  Columns : String := ""
  FetchedAlerts : String := ""
  HasEmulator : Bool := false
  secondaryText : String := ""

/-- The loop of `tview.Pages.AddPage` that drops the first page with the given name. -/
def removePage {Tbl : Type} (name : String) : List (Page Tbl) → List (Page Tbl)
  | [] => []
  | pg :: rest => if pg.Name = name then rest else pg :: removePage name rest

/-- Method `tview.Pages.AddPage`: a page of the same name is removed, the new page is appended. -/
def AddPage {Tbl : Type} (pages : List (Page Tbl)) (name : String) (item : Tbl)
    (resize visible : Bool) : List (Page Tbl) :=
  removePage name pages ++ [⟨name, item, resize, visible⟩]

/-- Method `tview.Pages.HasPage`. -/
def HasPage {Tbl : Type} (pages : List (Page Tbl)) (name : String) : Bool :=
  pages.any (fun pg => pg.Name == name)

/-- Method `tview.Pages.GetFrontPage`: the last visible page (name and widget), the empty name
and no widget when no page is visible. -/
def GetFrontPage {Tbl : Type} (pages : List (Page Tbl)) : String × Option Tbl :=
  match pages.reverse.find? (fun pg => pg.Visible) with
  | some pg => (pg.Name, some pg.Item)
  | none => ("", none)

/-- The widget registered in the page list under a name. -/
def pageItem {Tbl : Type} (pages : List (Page Tbl)) (name : String) : Option Tbl :=
  (pages.find? (fun pg => pg.Name == name)).map (fun pg => pg.Item)

namespace TUI

variable {Tbl : Type}

/-- tui.go 67-84. `SetAlertsTableEvents` only installs key handlers on the table and the
`InfoLogger` line only writes to the log window; neither is part of the modelled state. -/
def InitAlertsUI (kit : TableKit Tbl) (tui : TUI Tbl) (alerts : List Alert)
    (tableTitle pageTitle : String) : TUI Tbl :=
  let hd := kit.GetTableData alerts tui.Columns
  let table := kit.InitTable hd.1 hd.2 true false tableTitle
  let tui := { tui with Table := some table }
  let tui := { tui with Pages := AddPage tui.Pages pageTitle table true true }
  let tui := { tui with FrontPage := pageTitle }
  if pageTitle = TrigerredAlertsPageTitle then
    { tui with Footer := FooterTextTrigerredAlerts }
  else
    { tui with Footer := FooterTextAlerts }

/-- The header row of tui.go 89. -/
def incidentHeaders : List String :=
  ["INCIDENT ID", "NAME", "SEVERITY", "STATUS", "SERVICE", "ASSIGNED TO"]

/-- tui.go 88-101. `SetIncidentsTableEvents` only installs key handlers on the table. -/
def InitIncidentsUI (kit : TableKit Tbl) (tui : TUI Tbl) (incidents : List (List String))
    (tableTitle pageTitle : String) (isSelectable : Bool) : TUI Tbl :=
  let table :=
    if isSelectable then kit.InitTable incidentHeaders incidents true true tableTitle
    else kit.InitTable incidentHeaders incidents false false tableTitle
  let tui := { tui with IncidentsTable := some table }
  if !HasPage tui.Pages pageTitle then
    { tui with Pages := AddPage tui.Pages pageTitle table true false }
  else
    tui

/-- tui.go 132-146. -/
def initFooter (t : TUI Tbl) : TUI Tbl :=
  let name := (GetFrontPage t.Pages).1
  let t :=
    if name = AlertsPageTitle then { t with Footer := FooterTextAlerts }
    else { t with Footer := FooterText }
  if Contains name OncallPageTitle then { t with Footer := FooterTextOncall } else t

/-- tui.go 149-227, on the modelled fields: fresh, empty `Pages` and `Footer` widgets. The
terminal layout built by `InitKiteTab` and `InitTerminalMux` is outside the model. -/
def Init (tui : TUI Tbl) : TUI Tbl :=
  { tui with Pages := [], Footer := "" }

/-- tui.go 230-235: the footer is initialised, then the event loop runs and its result
(`run`) is returned. `initKeyboard` only installs the input handler. -/
def StartApp (t : TUI Tbl) (run : Option Error) : TUI Tbl × Option Error :=
  (t.initFooter, run)

/-- metadata.go 4-8. -/
def SetAlertsSecondaryData (tui : TUI Tbl) : TUI Tbl :=
  { tui with secondaryText :=
      "Logged in user: " ++ tui.Username ++ "\n" ++
      "Viewing alerts assigned to: " ++ tui.AssginedTo ++ "\n" ++
      "Number of alerts fetched: " ++ tui.FetchedAlerts }

end TUI

/-! ## cmd/kite/alerts/cmd.go -/

/-- The answers of the collaborators of `alertsHandler`. `getIncidentAlerts k inc` is the
answer to the `k`-th call (from 0) of `pdcli.GetIncidentAlerts` within one run, so answers
may change between calls. `incidentIdMatch` is `regexp.MatchString` against
`constants.IncidentIdRegex`, `terminal` the value of `pdcli.Terminal` once
`InitTerminalEmulator` has run, and `runApp` the result of the UI event loop. -/
structure Env where
  connect : Except Error Unit
  getCurrentUser : Except Error User
  incidentIdMatch : String → Bool
  configLoad : Except Error Config
  getIncidents : ListIncidentsOptions → Except Error (List Incident)
  getIncidentAlerts : Nat → Incident → Except Error (List Alert)
  terminal : String
  runApp : Option Error

/-- The effects `alertsHandler` performs, in program order. -/
inductive Event where
  | connect
  | getCurrentUser
  | configLoad
  | getIncidents (opts : ListIncidentsOptions)
  | getIncidentAlerts (incident : Incident)
  | println (line : String)
  | exit (code : Int)
  | initTerminalEmulator
  | tuiInit
  | initAlertsUI (alerts : List Alert) (tableTitle pageTitle : String)
  | startApp
deriving DecidableEq, Repr

/-- How a run of the handler ends: it returns (an error or nil), or the process exits. -/
inductive Outcome where
  | returned (err : Option Error)
  | exited (code : Int)
deriving DecidableEq, Repr

/-- A run of the handler: effects, outcome and the final `tui` value. -/
structure Run (Tbl : Type) where
  trace : List Event
  outcome : Outcome
  tui : TUI Tbl

/-- An effect that brings up the interactive view. -/
def Event.isUI : Event → Bool
  | .tuiInit => true
  | .initAlertsUI _ _ _ => true
  | .startApp => true
  | _ => false

/-- An effect that fetches incident or alert data. -/
def Event.isFetch : Event → Bool
  | .getIncidents _ => true
  | .getIncidentAlerts _ => true
  | _ => false

/-- The incidents whose alerts a trace requests, in order, with repetitions. -/
def alertRequests : List Event → List Incident
  | [] => []
  | .getIncidentAlerts inc :: rest => inc :: alertRequests rest
  | _ :: rest => alertRequests rest

/-- The incident queries a trace issues, in order. -/
def incidentQueries : List Event → List ListIncidentsOptions
  | [] => []
  | .getIncidents opts :: rest => opts :: incidentQueries rest
  | _ :: rest => incidentQueries rest

/-- cmd.go 206-216, the loop over the fetched incidents: `k` is the number of alert fetches
made so far, `alerts` the alerts accumulated so far. The result is the effects of the loop
and either the first fetch error or the accumulated alerts. -/
def getAllAlerts (env : Env) : Nat → List Incident → List Alert →
    List Event × Except Error (List Alert)
  | _, [], alerts => ([], .ok alerts)
  | k, incident :: rest, alerts =>
    match env.getIncidentAlerts k incident with
    | .error err => ([.getIncidentAlerts incident], .error err)
    | .ok incidentAlerts =>
      let r := getAllAlerts env (k + 1) rest (alerts ++ incidentAlerts)
      (.getIncidentAlerts incident :: r.1, r.2)

/-- cmd.go 130-139 and 231-240: the UI is set up on the fetched alerts and started. -/
def showAlerts {Tbl : Type} (kit : TableKit Tbl) (env : Env) (tr : List Event)
    (tui : TUI Tbl) (alerts : List Alert) : Run Tbl :=
  let tui := tui.Init
  let tui := tui.InitAlertsUI kit alerts AlertsTableTitle AlertsPageTitle
  let r := tui.StartApp env.runApp
  ⟨tr ++ [.tuiInit, .initAlertsUI alerts AlertsTableTitle AlertsPageTitle, .startApp],
    .returned r.2, r.1⟩

/-- cmd.go 107-140: the branch taken when an incident ID argument is given. -/
def handleIncidentArg {Tbl : Type} (kit : TableKit Tbl) (env : Env) (tr : List Event)
    (tui : TUI Tbl) (arg0 : String) : Run Tbl :=
  let incidentID := TrimSpace arg0
  if !env.incidentIdMatch incidentID then
    ⟨tr, .returned (some (Errorf "invalid incident ID")), tui⟩
  else
    let incident : Incident := { Id := incidentID }
    match env.getIncidentAlerts 0 incident with
    | .error err => ⟨tr ++ [.getIncidentAlerts incident], .returned (some err), tui⟩
    | .ok alerts =>
      let tui := { tui with FetchedAlerts := Itoa alerts.length }
      showAlerts kit env (tr ++ [.getIncidentAlerts incident]) tui alerts

/-- cmd.go 149-190, the switch on the assigned-to option: either the effects, the error
returned and the `tui` value at that point, or the effects, the completed query and the
`tui` value. -/
def assignmentSwitch {Tbl : Type} (K : Constants) (env : Env) (options : Options)
    (user : User) (incidentOpts : ListIncidentsOptions) (tui : TUI Tbl) :
    List Event × TUI Tbl × Except Error ListIncidentsOptions :=
  if options.assignment = "team" then
    match env.configLoad with
    | .error err => ([.configLoad], tui, .error err)
    | .ok cfg =>
      let teamID := cfg.TeamID
      let tui := { tui with AssginedTo := cfg.Team }
      if teamID = "" then
        ([.configLoad], tui,
          .error (Errorf "no team selected, please run 'kite teams' to set a team"))
      else
        ([.configLoad], tui,
          .ok { incidentOpts with
                TeamIDs := [] ++ [teamID],
                Statuses := [] ++ [K.StatusTriggered, K.StatusAcknowledged] })
  else if options.assignment = "silentTest" then
    ([], { tui with AssginedTo := "Silent Test" },
      .ok { incidentOpts with
            UserIDs := [] ++ [K.SilentTest],
            Statuses := [] ++ [K.StatusTriggered, K.StatusAcknowledged] })
  else if options.assignment = "self" then
    ([], { tui with AssginedTo := user.Name },
      .ok { incidentOpts with
            UserIDs := [] ++ [user.ID],
            Statuses := [] ++ [K.StatusAcknowledged] })
  else
    ([], tui, .error (Errorf "please enter a valid assigned-to option"))

/-- cmd.go 192-240: the incidents are fetched with the completed query, then their alerts,
then the UI is started. -/
def fetchAndShow {Tbl : Type} (kit : TableKit Tbl) (env : Env) (options : Options)
    (tr : List Event) (tui : TUI Tbl) (incidentOpts : ListIncidentsOptions) : Run Tbl :=
  match env.getIncidents incidentOpts with
  | .error err => ⟨tr ++ [.getIncidents incidentOpts], .returned (some err), tui⟩
  | .ok incidents =>
    let tr := tr ++ [.getIncidents incidentOpts]
    if incidents.length = 0 then
      ⟨tr ++ [.println ("Currently there are no alerts assigned to " ++ options.assignment),
              .exit 0],
        .exited 0, tui⟩
    else
      let r := getAllAlerts env 0 incidents []
      match r.2 with
      | .error err => ⟨tr ++ r.1, .returned (some err), tui⟩
      | .ok alerts =>
        let tui := { tui with FetchedAlerts := Itoa alerts.length }
        let tui := { tui with IncidentOpts := incidentOpts }
        let tui := if env.terminal ≠ "" then { tui with HasEmulator := true } else tui
        showAlerts kit env (tr ++ r.1 ++ [.initTerminalEmulator]) tui alerts

/-- cmd.go 71-241, `alertsHandler`: `options` are the parsed flags, `args` the positional
arguments. -/
def alertsHandler {Tbl : Type} (K : Constants) (kit : TableKit Tbl) (env : Env)
    (options : Options) (args : List String) : Run Tbl :=
  let tui : TUI Tbl := {}
  match env.connect with
  | .error err => ⟨[.connect], .returned (some err), tui⟩
  | .ok _ =>
    match env.getCurrentUser with
    | .error err => ⟨[.connect, .getCurrentUser], .returned (some err), tui⟩
    | .ok user =>
      let tr : List Event := [.connect, .getCurrentUser]
      let tui := { tui with Username := user.Name, Columns := options.columns }
      match args with
      | arg0 :: _ => handleIncidentArg kit env tr tui arg0
      | [] =>
        let incidentOpts : ListIncidentsOptions :=
          { Limit := K.IncidentsLimit, Urgencies := [K.StatusLow, K.StatusHigh] }
        let sw := assignmentSwitch K env options user incidentOpts tui
        match sw.2.2 with
        | .error err => ⟨tr ++ sw.1, .returned (some err), sw.2.1⟩
        | .ok opts => fetchAndShow kit env options (tr ++ sw.1) sw.2.1 opts

/-- The alerts the `k`-th fetch returns for an incident, none when it fails. -/
def fetchedAlerts (env : Env) (k : Nat) (incident : Incident) : List Alert :=
  match env.getIncidentAlerts k incident with
  | .ok alerts => alerts
  | .error _ => []

/-- The concatenation, in incident order, of the alerts fetched for each incident of a list,
the first incident being the subject of fetch number `k`. -/
def concatFetched (env : Env) : Nat → List Incident → List Alert
  | _, [] => []
  | k, incident :: rest => fetchedAlerts env k incident ++ concatFetched env (k + 1) rest

/-- The per-incident alert counts, in incident order. -/
def fetchedCounts (env : Env) : Nat → List Incident → List Nat
  | _, [] => []
  | k, incident :: rest => (fetchedAlerts env k incident).length :: fetchedCounts env (k + 1) rest

/-- No effect of the trace brings up the interactive view. -/
def noUI (tr : List Event) : Prop := ∀ e ∈ tr, e.isUI = false

/-- No effect of the trace fetches incident or alert data. -/
def noFetch (tr : List Event) : Prop := ∀ e ∈ tr, e.isFetch = false

/-! ## Concrete instances used in the worked examples -/

/-- A table widget that records what it was built from. -/
structure TableSpec where
  headers : List String
  rows : List (List String)
  selectable : Bool
  flag : Bool
  title : String
deriving DecidableEq, Repr

/-- A table kit over `TableSpec`: alerts are projected onto incident ID, alert ID and name. -/
def specKit : TableKit TableSpec where
  GetTableData := fun alerts _ =>
    (["INCIDENT ID", "ALERT ID", "ALERT"],
      alerts.map (fun a => [a.IncidentID, a.AlertID, a.Name]))
  InitTable := TableSpec.mk

/-- The values of `pkg/constants` in the upstream repository (`SilentTest` is a user ID). -/
def upstreamConstants : Constants where
  IncidentsLimit := 25
  StatusLow := "low"
  StatusHigh := "high"
  StatusTriggered := "triggered"
  StatusAcknowledged := "acknowledged"
  SilentTest := "P8QS6CC"

/-! ## Worked inputs for the handler -/

/-- An incident ID check in the shape of the upstream pattern: upper-case letters and digits. -/
def upperAlnum (s : String) : Bool :=
  !s.toList.isEmpty && s.toList.all (fun c => c.isUpper || c.isDigit)

def alertA1 : Alert := ⟨"PINC001", "A1", "cluster-a", "cid-a", "KubeNodeNotReady", "triggered", "critical"⟩
def alertA2 : Alert := ⟨"PINC001", "A2", "cluster-a", "cid-a", "KubeAPIDown", "triggered", "critical"⟩
def alertB1 : Alert := ⟨"PINC002", "B1", "cluster-b", "cid-b", "etcdMembersDown", "triggered", "warning"⟩

def incident1 : Incident := { Id := "PINC001", Title := "node down", Status := "acknowledged", Urgency := "high" }
def incident2 : Incident := { Id := "PINC002", Title := "etcd", Status := "acknowledged", Urgency := "low" }
def incident3 : Incident := { Id := "PINC003", Title := "dns", Status := "acknowledged", Urgency := "high" }

/-- Every collaborator answers; no incident matches the query. -/
def envNoIncidents : Env where
  connect := .ok ()
  getCurrentUser := .ok ⟨"PUSER01", "alice"⟩
  incidentIdMatch := upperAlnum
  configLoad := .ok ⟨"PTEAM01", "sre-platform"⟩
  getIncidents := fun _ => .ok []
  getIncidentAlerts := fun _ _ => .ok [alertA1]
  terminal := "gnome-terminal"
  runApp := none

/-- The incident fetch answers three incidents; the second alert fetch fails. -/
def envSecondAlertFetchFails : Env where
  connect := .ok ()
  getCurrentUser := .ok ⟨"PUSER01", "alice"⟩
  incidentIdMatch := upperAlnum
  configLoad := .ok ⟨"PTEAM01", "sre-platform"⟩
  getIncidents := fun _ => .ok [incident1, incident2, incident3]
  getIncidentAlerts := fun k _ => if k = 1 then .error ⟨"HTTP 429: rate limited"⟩ else .ok [alertA1]
  terminal := ""
  runApp := none

/-- The incident fetch answers two incidents, with two alerts and one alert. -/
def envTwoIncidents : Env where
  connect := .ok ()
  getCurrentUser := .ok ⟨"PUSER01", "alice"⟩
  incidentIdMatch := upperAlnum
  configLoad := .ok ⟨"PTEAM01", "sre-platform"⟩
  getIncidents := fun _ => .ok [incident1, incident2]
  getIncidentAlerts := fun _ inc => if inc.Id = "PINC001" then .ok [alertA1, alertA2] else .ok [alertB1]
  terminal := ""
  runApp := none

/-- The configuration loads but holds no team. -/
def envNoTeam : Env where
  connect := .ok ()
  getCurrentUser := .ok ⟨"PUSER01", "alice"⟩
  incidentIdMatch := upperAlnum
  configLoad := .ok ⟨"", ""⟩
  getIncidents := fun _ => .ok [incident1]
  getIncidentAlerts := fun _ _ => .ok [alertA1]
  terminal := ""
  runApp := none

def teamOptions : Options := { assignment := "team" }
def unknownOptions : Options := { assignment := "everyone" }

/-- The query the default options produce for user `PUSER01` with the upstream constants. -/
def selfQuery : ListIncidentsOptions :=
  { Limit := 25, Urgencies := ["low", "high"], UserIDs := ["PUSER01"], Statuses := ["acknowledged"] }

/-- The query the team option produces for team `PTEAM01` with the upstream constants. -/
def teamQuery : ListIncidentsOptions :=
  { Limit := 25, Urgencies := ["low", "high"], TeamIDs := ["PTEAM01"],
    Statuses := ["triggered", "acknowledged"] }

/-! ## Worked inputs for the page controller -/

/-- A table of one row, standing for an earlier fetch. -/
def oldTable : TableSpec :=
  specKit.InitTable TUI.incidentHeaders [["P100", "old incident", "high", "triggered", "svc", "me"]]
    true true IncidentsTableTitle

/-- A state whose `Incidents` page shows the table of an earlier fetch. -/
def tuiWithIncidentsPage : TUI TableSpec :=
  { IncidentsTable := some oldTable,
    Pages := [⟨IncidentsPageTitle, oldTable, true, false⟩] }

/-- A fresh fetch that no longer holds incident `P100`. -/
def freshIncidents : List (List String) :=
  [["P200", "new incident", "high", "triggered", "svc", "me"]]

/-- A state whose front page is a paginated oncall page. -/
def tuiOnOncallPage : TUI TableSpec :=
  { Pages := [⟨AlertsPageTitle, oldTable, true, false⟩,
              ⟨"Oncall Layer 2", oldTable, true, true⟩] }

/-! ## Lemmas on the library models -/

theorem hasPrefixChars_iff (s sub : List Char) :
    hasPrefixChars s sub = true ↔ sub <+: s := by
  induction s generalizing sub with
  | nil => cases sub <;> simp [hasPrefixChars]
  | cons c cs ih =>
    cases sub with
    | nil => simp [hasPrefixChars]
    | cons p ps =>
      simp only [hasPrefixChars, Bool.and_eq_true, beq_iff_eq, ih, List.cons_prefix_cons]
      constructor
      · rintro ⟨h1, h2⟩; exact ⟨h1.symm, h2⟩
      · rintro ⟨h1, h2⟩; exact ⟨h1.symm, h2⟩

theorem containsChars_iff (s sub : List Char) :
    containsChars s sub = true ↔ sub <:+: s := by
  induction s with
  | nil =>
    simp only [containsChars, hasPrefixChars_iff]
    constructor
    · intro h; exact h.isInfix
    · intro h; rw [List.eq_nil_of_infix_nil h]
  | cons c cs ih =>
    simp only [containsChars, Bool.or_eq_true, hasPrefixChars_iff, ih, List.infix_cons_iff]

/-- The model of `strings.Contains` decides the substring relation. -/
theorem Contains_iff (s substr : String) :
    Contains s substr = true ↔ substr.toList <:+: s.toList :=
  containsChars_iff _ _

theorem removePage_of_not_HasPage {Tbl : Type} (pages : List (Page Tbl)) (name : String)
    (h : HasPage pages name = false) : removePage name pages = pages := by
  induction pages with
  | nil => rfl
  | cons pg rest ih =>
    simp only [HasPage, List.any_cons, Bool.or_eq_false_iff, beq_eq_false_iff_ne, ne_eq] at h
    simp only [removePage, h.1, if_false]
    rw [ih (by simpa [HasPage] using h.2)]

theorem pageItem_append_of_not_HasPage {Tbl : Type} (pages : List (Page Tbl)) (pg : Page Tbl)
    (h : HasPage pages pg.Name = false) :
    pageItem (pages ++ [pg]) pg.Name = some pg.Item := by
  induction pages with
  | nil => simp [pageItem, List.find?]
  | cons q rest ih =>
    simp only [HasPage, List.any_cons, Bool.or_eq_false_iff] at h
    have ih2 := ih (by simpa [HasPage] using h.2)
    simp only [pageItem, List.cons_append, List.find?, h.1] at ih2 ⊢
    exact ih2

theorem GetFrontPage_AddPage_visible {Tbl : Type} (pages : List (Page Tbl)) (name : String)
    (item : Tbl) (resize : Bool) :
    GetFrontPage (AddPage pages name item resize true) = (name, some item) := by
  simp [GetFrontPage, AddPage, List.find?]

/-! ## The footer mapping (tui.go 132-146) -/

/-- C5: `initFooter` sets the footer as a total function of the front page title: a title
that contains `OncallPageTitle` as a substring (equal to it or not) gets `FooterTextOncall`,
the title `AlertsPageTitle` gets `FooterTextAlerts`, every other title gets `FooterText`;
the three cases are exclusive and nothing but the footer changes. -/
theorem initFooter_total {Tbl : Type} (t : TUI Tbl) :
    (OncallPageTitle.toList <:+: (GetFrontPage t.Pages).1.toList →
        t.initFooter.Footer = FooterTextOncall) ∧
    ((GetFrontPage t.Pages).1 = AlertsPageTitle → t.initFooter.Footer = FooterTextAlerts) ∧
    (¬ OncallPageTitle.toList <:+: (GetFrontPage t.Pages).1.toList →
        (GetFrontPage t.Pages).1 ≠ AlertsPageTitle → t.initFooter.Footer = FooterText) ∧
    ¬ OncallPageTitle.toList <:+: AlertsPageTitle.toList ∧
    t.initFooter = { t with Footer := t.initFooter.Footer } := by
  have hA : Contains AlertsPageTitle OncallPageTitle = false := by decide
  refine ⟨?_, ?_, ?_, ?_, ?_⟩
  · intro h
    have hc := (Contains_iff _ _).2 h
    simp [TUI.initFooter, hc]
  · intro h
    simp [TUI.initFooter, h, hA]
  · intro h hne
    have hc : Contains (GetFrontPage t.Pages).1 OncallPageTitle = false := by
      rw [← Bool.not_eq_true, Contains_iff]; exact h
    simp [TUI.initFooter, hc, hne]
  · rw [← Contains_iff, hA]; simp
  · unfold TUI.initFooter
    dsimp only
    split <;> split <;> rfl

/-- C5, on a paginated oncall page: the title "Oncall Layer 2" contains, and differs from,
`OncallPageTitle`, and the footer becomes `FooterTextOncall`. -/
theorem initFooter_total_witness :
    OncallPageTitle.toList <:+: (GetFrontPage tuiOnOncallPage.Pages).1.toList ∧
    (GetFrontPage tuiOnOncallPage.Pages).1 ≠ OncallPageTitle ∧
    tuiOnOncallPage.initFooter.Footer = FooterTextOncall :=
  ⟨⟨[], " 2".toList, by decide⟩, by decide,
    (initFooter_total tuiOnOncallPage).1 ⟨[], " 2".toList, by decide⟩⟩

/-- C10 fails as stated: for the page title "Trigerred" `InitAlertsUI` sets
`FooterTextTrigerredAlerts`, while `initFooter`, run on the resulting state whose front page
is that title, sets `FooterText`. -/
theorem InitAlertsUI_footer_differs_on_Trigerred :
    (GetFrontPage ((TUI.InitAlertsUI specKit {} [] TrigerredAlertsTableTitle
        TrigerredAlertsPageTitle).Pages)).1 = TrigerredAlertsPageTitle ∧
    (TUI.InitAlertsUI specKit {} [] TrigerredAlertsTableTitle
        TrigerredAlertsPageTitle).Footer = FooterTextTrigerredAlerts ∧
    (TUI.InitAlertsUI specKit {} [] TrigerredAlertsTableTitle
        TrigerredAlertsPageTitle).initFooter.Footer = FooterText ∧
    (TUI.InitAlertsUI specKit {} [] TrigerredAlertsTableTitle
        TrigerredAlertsPageTitle).Footer ≠
      (TUI.InitAlertsUI specKit {} [] TrigerredAlertsTableTitle
        TrigerredAlertsPageTitle).initFooter.Footer := by
  decide

/-- C10 as amended: `InitAlertsUI` makes `p` the front page, and the footer it sets equals the
footer `initFooter` sets for that front page exactly when `p` is `AlertsPageTitle`. -/
theorem InitAlertsUI_footer_agrees_iff {Tbl : Type} (kit : TableKit Tbl) (tui : TUI Tbl)
    (alerts : List Alert) (tableTitle p : String) :
    (GetFrontPage (tui.InitAlertsUI kit alerts tableTitle p).Pages).1 = p ∧
    ((tui.InitAlertsUI kit alerts tableTitle p).Footer =
        (tui.InitAlertsUI kit alerts tableTitle p).initFooter.Footer ↔ p = AlertsPageTitle) := by
  have hfront : (GetFrontPage (tui.InitAlertsUI kit alerts tableTitle p).Pages).1 = p := by
    unfold TUI.InitAlertsUI
    dsimp only
    split <;> simp [GetFrontPage_AddPage_visible]
  refine ⟨hfront, ?_⟩
  have hA : Contains AlertsPageTitle OncallPageTitle = false := by decide
  have hAT : AlertsPageTitle ≠ TrigerredAlertsPageTitle := by decide
  have h1 : FooterTextTrigerredAlerts ≠ FooterTextOncall := by decide
  have h2 : FooterTextTrigerredAlerts ≠ FooterText := by decide
  have h3 : FooterTextAlerts ≠ FooterTextOncall := by decide
  have h4 : FooterTextAlerts ≠ FooterText := by decide
  have hfoot : (tui.InitAlertsUI kit alerts tableTitle p).Footer =
      if p = TrigerredAlertsPageTitle then FooterTextTrigerredAlerts else FooterTextAlerts := by
    unfold TUI.InitAlertsUI
    dsimp only
    split <;> rfl
  have hinit : (tui.InitAlertsUI kit alerts tableTitle p).initFooter.Footer =
      if Contains p OncallPageTitle then FooterTextOncall
      else if p = AlertsPageTitle then FooterTextAlerts else FooterText := by
    unfold TUI.initFooter
    rw [hfront]
    dsimp only
    split <;> split <;> simp_all
  rw [hfoot, hinit]
  constructor
  · intro h
    by_contra hne
    split_ifs at h
    all_goals first | exact h1 h | exact h2 h | exact h3 h | exact h4 h
  · intro h
    subst h
    simp [hA, hAT]

/-! ## Rebuilding the incidents page (tui.go 88-101) -/

/-- When no page of that name exists yet, `InitIncidentsUI` registers under `pageTitle` the
table it has just built from `incidents`, the one now held in `tui.IncidentsTable`. -/
theorem InitIncidentsUI_fresh_page {Tbl : Type} (kit : TableKit Tbl) (tui : TUI Tbl)
    (incidents : List (List String)) (tableTitle pageTitle : String) (isSelectable : Bool)
    (hnew : HasPage tui.Pages pageTitle = false) :
    (tui.InitIncidentsUI kit incidents tableTitle pageTitle isSelectable).IncidentsTable =
      some (kit.InitTable TUI.incidentHeaders incidents isSelectable isSelectable tableTitle) ∧
    pageItem (tui.InitIncidentsUI kit incidents tableTitle pageTitle isSelectable).Pages pageTitle =
      (tui.InitIncidentsUI kit incidents tableTitle pageTitle isSelectable).IncidentsTable := by
  have key : ∀ item : Tbl, pageItem (AddPage tui.Pages pageTitle item true false) pageTitle =
      some item := by
    intro item
    unfold AddPage
    rw [removePage_of_not_HasPage _ _ hnew]
    exact pageItem_append_of_not_HasPage tui.Pages ⟨pageTitle, item, true, false⟩ hnew
  cases isSelectable <;> simp [TUI.InitIncidentsUI, hnew, key]

/-- C6 fails on the code: on a state whose `Incidents` page already shows the table of an
earlier fetch, `InitIncidentsUI` with a fresh fetch stores the new table in
`tui.IncidentsTable` but leaves the old table, with the row of incident `P100`, registered
under the page title. -/
theorem InitIncidentsUI_keeps_stale_page :
    HasPage tuiWithIncidentsPage.Pages IncidentsPageTitle = true ∧
    (tuiWithIncidentsPage.InitIncidentsUI specKit freshIncidents IncidentsTableTitle
        IncidentsPageTitle true).IncidentsTable =
      some (specKit.InitTable TUI.incidentHeaders freshIncidents true true IncidentsTableTitle) ∧
    pageItem (tuiWithIncidentsPage.InitIncidentsUI specKit freshIncidents IncidentsTableTitle
        IncidentsPageTitle true).Pages IncidentsPageTitle = some oldTable ∧
    pageItem (tuiWithIncidentsPage.InitIncidentsUI specKit freshIncidents IncidentsTableTitle
        IncidentsPageTitle true).Pages IncidentsPageTitle ≠
      (tuiWithIncidentsPage.InitIncidentsUI specKit freshIncidents IncidentsTableTitle
        IncidentsPageTitle true).IncidentsTable := by
  decide

/-! ## Lemmas on traces and on the alert loop (cmd.go 206-216) -/

theorem alertRequests_append (a b : List Event) :
    alertRequests (a ++ b) = alertRequests a ++ alertRequests b := by
  induction a with
  | nil => rfl
  | cons e rest ih => cases e <;> simp [alertRequests, ih]

theorem incidentQueries_append (a b : List Event) :
    incidentQueries (a ++ b) = incidentQueries a ++ incidentQueries b := by
  induction a with
  | nil => rfl
  | cons e rest ih => cases e <;> simp [incidentQueries, ih]

theorem alertRequests_map (l : List Incident) :
    alertRequests (l.map Event.getIncidentAlerts) = l := by
  induction l with
  | nil => rfl
  | cons inc rest ih => simp [alertRequests, ih]

theorem incidentQueries_map (l : List Incident) :
    incidentQueries (l.map Event.getIncidentAlerts) = [] := by
  induction l with
  | nil => rfl
  | cons inc rest ih => simp [incidentQueries, ih]

/-- Whatever the answers, the loop requests a leading segment of the incident list, one
request per list entry. -/
theorem getAllAlerts_trace (env : Env) (k : Nat) (l : List Incident) (acc : List Alert) :
    ∃ n, n ≤ l.length ∧
      (getAllAlerts env k l acc).1 = (l.take n).map Event.getIncidentAlerts := by
  induction l generalizing k acc with
  | nil => exact ⟨0, Nat.le_refl _, rfl⟩
  | cons inc rest ih =>
    cases hk : env.getIncidentAlerts k inc with
    | error e => exact ⟨1, by simp, by simp [getAllAlerts, hk]⟩
    | ok al =>
      obtain ⟨n, hn, h⟩ := ih (k + 1) (acc ++ al)
      exact ⟨n + 1, by simpa using hn, by simp [getAllAlerts, hk, h]⟩

/-- When every fetch succeeds the loop requests every incident once, in order, and returns
the accumulated alerts followed by the fetched ones in incident order. -/
theorem getAllAlerts_ok (env : Env) (k : Nat) (l : List Incident) (acc : List Alert)
    (hall : ∀ j inc, l[j]? = some inc → ∃ al, env.getIncidentAlerts (k + j) inc = .ok al) :
    getAllAlerts env k l acc =
      (l.map Event.getIncidentAlerts, .ok (acc ++ concatFetched env k l)) := by
  induction l generalizing k acc with
  | nil => simp [getAllAlerts, concatFetched]
  | cons inc rest ih =>
    obtain ⟨al, hal⟩ := hall 0 inc (by simp)
    have hrest : ∀ j i, rest[j]? = some i →
        ∃ al, env.getIncidentAlerts (k + 1 + j) i = .ok al := by
      intro j i hj
      have := hall (j + 1) i (by simpa using hj)
      rwa [show k + (j + 1) = k + 1 + j by omega] at this
    simp only [Nat.add_zero] at hal
    unfold getAllAlerts
    simp only [hal]
    rw [ih (k + 1) (acc ++ al) hrest]
    simp [concatFetched, fetchedAlerts, hal]

/-- When some fetch fails the loop stops at the first failing one: it returns that error and
has requested exactly the incidents up to and including the failing one. -/
theorem getAllAlerts_error (env : Env) (k : Nat) (l : List Incident) (acc : List Alert)
    (hfail : ∃ j inc err, l[j]? = some inc ∧ env.getIncidentAlerts (k + j) inc = .error err) :
    ∃ j inc err, l[j]? = some inc ∧ env.getIncidentAlerts (k + j) inc = .error err ∧
      (∀ i x, i < j → l[i]? = some x → ∃ al, env.getIncidentAlerts (k + i) x = .ok al) ∧
      getAllAlerts env k l acc = ((l.take (j + 1)).map Event.getIncidentAlerts, .error err) := by
  induction l generalizing k acc with
  | nil =>
    obtain ⟨j, inc, err, h, _⟩ := hfail
    simp at h
  | cons inc rest ih =>
    cases hk : env.getIncidentAlerts k inc with
    | error e =>
      refine ⟨0, inc, e, by simp, by simpa using hk, ?_, ?_⟩
      · intro i x hi; omega
      · unfold getAllAlerts
        simp [hk]
    | ok al =>
      have hrest : ∃ j i err, rest[j]? = some i ∧
          env.getIncidentAlerts (k + 1 + j) i = .error err := by
        obtain ⟨j, i, err, hj, he⟩ := hfail
        cases j with
        | zero =>
          simp at hj
          subst hj
          simp only [Nat.add_zero] at he
          rw [hk] at he
          cases he
        | succ j =>
          refine ⟨j, i, err, by simpa using hj, ?_⟩
          rwa [show k + (j + 1) = k + 1 + j by omega] at he
      obtain ⟨j, i, err, hj, he, hbefore, hrun⟩ := ih (k + 1) (acc ++ al) hrest
      refine ⟨j + 1, i, err, by simpa using hj, ?_, ?_, ?_⟩
      · rwa [show k + (j + 1) = k + 1 + j by omega]
      · intro m x hm hx
        cases m with
        | zero =>
          simp at hx
          subst hx
          exact ⟨al, by simpa using hk⟩
        | succ m =>
          have := hbefore m x (by omega) (by simpa using hx)
          rwa [show k + (m + 1) = k + 1 + m by omega]
      · unfold getAllAlerts
        simp [hk, hrun]

/-! ## Lemmas on the handler (cmd.go 71-241) -/

theorem mem_incidentQueries (tr : List Event) (opts : ListIncidentsOptions) :
    Event.getIncidents opts ∈ tr ↔ opts ∈ incidentQueries tr := by
  induction tr with
  | nil => simp [incidentQueries]
  | cons e rest ih => cases e <;> simp [incidentQueries, ih]

theorem noUI_append (a b : List Event) : noUI (a ++ b) ↔ noUI a ∧ noUI b := by
  simp only [noUI, List.mem_append]
  constructor
  · intro h; exact ⟨fun e he => h e (Or.inl he), fun e he => h e (Or.inr he)⟩
  · rintro ⟨h1, h2⟩ e (he | he)
    · exact h1 e he
    · exact h2 e he

theorem noUI_map (l : List Incident) : noUI (l.map Event.getIncidentAlerts) := by
  intro e he
  obtain ⟨inc, _, rfl⟩ := List.mem_map.1 he
  rfl

/-- The switch on the assigned-to option performs at most the configuration load. -/
theorem assignmentSwitch_trace {Tbl : Type} (K : Constants) (env : Env) (options : Options)
    (user : User) (base : ListIncidentsOptions) (tui : TUI Tbl) :
    (assignmentSwitch K env options user base tui).1 = [] ∨
    (assignmentSwitch K env options user base tui).1 = [Event.configLoad] := by
  unfold assignmentSwitch
  split
  · split
    · right; rfl
    · dsimp only
      split <;> (right; rfl)
  · split
    · left; rfl
    · split <;> (left; rfl)

/-- The queries a run of `fetchAndShow` issues: those already in the trace, then its own. -/
theorem fetchAndShow_queries {Tbl : Type} (kit : TableKit Tbl) (env : Env) (options : Options)
    (tr : List Event) (tui : TUI Tbl) (opts : ListIncidentsOptions) :
    incidentQueries (fetchAndShow kit env options tr tui opts).trace =
      incidentQueries tr ++ [opts] := by
  unfold fetchAndShow
  cases hq : env.getIncidents opts with
  | error err => simp [incidentQueries_append, incidentQueries]
  | ok incidents =>
    dsimp only
    split
    · simp [incidentQueries_append, incidentQueries]
    · obtain ⟨n, _, hn⟩ := getAllAlerts_trace env 0 incidents []
      have hz : incidentQueries (getAllAlerts env 0 incidents []).1 = [] := by
        rw [hn]; exact incidentQueries_map _
      split
      · simp [incidentQueries_append, incidentQueries, hz]
      · simp [showAlerts, incidentQueries_append, incidentQueries, hz]

/-- The switch on the assigned-to option leaves the column selection of the `tui` alone. -/
theorem assignmentSwitch_columns {Tbl : Type} (K : Constants) (env : Env) (options : Options)
    (user : User) (base : ListIncidentsOptions) (tui : TUI Tbl) :
    (assignmentSwitch K env options user base tui).2.1.Columns = tui.Columns := by
  unfold assignmentSwitch
  split
  · split
    · rfl
    · dsimp only
      split <;> rfl
  · split
    · rfl
    · split <;> rfl

/-- A run without an incident ID argument that issues an incident query has connected,
fetched the current user and passed the assigned-to switch, which completed that query; the
rest of the run is `fetchAndShow` on it. -/
theorem reach_fetch {Tbl : Type} (K : Constants) (kit : TableKit Tbl) (env : Env)
    (options : Options) (opts : ListIncidentsOptions)
    (hq : Event.getIncidents opts ∈ (alertsHandler K kit env options []).trace) :
    ∃ (user : User) (tui1 tui0 : TUI Tbl) (pre : List Event),
      env.connect = .ok () ∧ env.getCurrentUser = .ok user ∧
      assignmentSwitch K env options user
        { Limit := K.IncidentsLimit, Urgencies := [K.StatusLow, K.StatusHigh] } tui1 =
        (pre, tui0, .ok opts) ∧
      (pre = [] ∨ pre = [Event.configLoad]) ∧
      alertsHandler K kit env options [] =
        fetchAndShow kit env options ([Event.connect, Event.getCurrentUser] ++ pre) tui0 opts ∧
      tui0.Columns = options.columns := by
  unfold alertsHandler at hq ⊢
  cases hc : env.connect with
  | error err => simp [hc] at hq
  | ok u =>
    cases hu : env.getCurrentUser with
    | error err => simp [hc, hu] at hq
    | ok user =>
      simp only [hc, hu] at hq ⊢
      generalize hsw : assignmentSwitch K env options user
        { Limit := K.IncidentsLimit, Urgencies := [K.StatusLow, K.StatusHigh] }
        ({ Username := user.Name, Columns := options.columns } : TUI Tbl) = sw at hq ⊢
      obtain ⟨pre, tui0, res⟩ := sw
      have hpre := assignmentSwitch_trace K env options user
        { Limit := K.IncidentsLimit, Urgencies := [K.StatusLow, K.StatusHigh] }
        ({ Username := user.Name, Columns := options.columns } : TUI Tbl)
      have hcol := assignmentSwitch_columns K env options user
        { Limit := K.IncidentsLimit, Urgencies := [K.StatusLow, K.StatusHigh] }
        ({ Username := user.Name, Columns := options.columns } : TUI Tbl)
      rw [hsw] at hpre hcol
      dsimp only at hpre hcol
      cases res with
      | error err =>
        rcases hpre with h | h <;> simp [h] at hq
      | ok o =>
        dsimp only at hq ⊢
        have ho : opts = o := by
          rw [mem_incidentQueries, fetchAndShow_queries, incidentQueries_append] at hq
          rcases hpre with h | h <;> simpa [h, incidentQueries] using hq
        subst ho
        exact ⟨user, _, tui0, pre, by simp, by simp, hsw, hpre, rfl, hcol⟩

/-- What a successful pass through the assigned-to switch (cmd.go 149-190) leaves in the query. -/
theorem assignmentSwitch_ok {Tbl : Type} (K : Constants) (env : Env) (options : Options)
    (user : User) (base : ListIncidentsOptions) (tui1 tui0 : TUI Tbl) (pre : List Event)
    (opts : ListIncidentsOptions)
    (h : assignmentSwitch K env options user base tui1 = (pre, tui0, .ok opts)) :
    (options.assignment = "team" ∧ ∃ cfg, env.configLoad = .ok cfg ∧ cfg.TeamID ≠ "" ∧
        opts = { base with TeamIDs := [cfg.TeamID],
                           Statuses := [K.StatusTriggered, K.StatusAcknowledged] }) ∨
    (options.assignment = "silentTest" ∧
        opts = { base with UserIDs := [K.SilentTest],
                           Statuses := [K.StatusTriggered, K.StatusAcknowledged] }) ∨
    (options.assignment = "self" ∧
        opts = { base with UserIDs := [user.ID], Statuses := [K.StatusAcknowledged] }) := by
  unfold assignmentSwitch at h
  by_cases ht : options.assignment = "team"
  · left
    refine ⟨ht, ?_⟩
    rw [if_pos ht] at h
    cases hcfg : env.configLoad with
    | error err => simp [hcfg] at h
    | ok cfg =>
      simp only [hcfg] at h
      by_cases hid : cfg.TeamID = ""
      · simp [hid] at h
      · simp only [hid, if_false, List.nil_append, Prod.mk.injEq, Except.ok.injEq] at h
        exact ⟨cfg, rfl, hid, h.2.2.symm⟩
  · rw [if_neg ht] at h
    by_cases hs : options.assignment = "silentTest"
    · right; left
      rw [if_pos hs] at h
      simp only [List.nil_append, Prod.mk.injEq, Except.ok.injEq] at h
      exact ⟨hs, h.2.2.symm⟩
    · rw [if_neg hs] at h
      by_cases hself : options.assignment = "self"
      · right; right
        rw [if_pos hself] at h
        simp only [List.nil_append, Prod.mk.injEq, Except.ok.injEq] at h
        exact ⟨hself, h.2.2.symm⟩
      · rw [if_neg hself] at h
        simp at h

/-- Every incident query the handler issues asks for both urgencies (cmd.go 146). -/
theorem alertsHandler_query_urgencies {Tbl : Type} (K : Constants) (kit : TableKit Tbl)
    (env : Env) (options : Options) (opts : ListIncidentsOptions)
    (hq : Event.getIncidents opts ∈ (alertsHandler K kit env options []).trace) :
    opts.Urgencies = [K.StatusLow, K.StatusHigh] ∧ opts.Limit = K.IncidentsLimit := by
  obtain ⟨user, tui1, tui0, pre, _, _, hsw, _, _⟩ := reach_fetch K kit env options opts hq
  rcases assignmentSwitch_ok K env options user _ tui1 tui0 pre opts hsw with
    ⟨_, cfg, _, _, h⟩ | ⟨_, h⟩ | ⟨_, h⟩ <;> (subst h; exact ⟨rfl, rfl⟩)

/-! ## The claims on the handler -/

/-- C1: in a run without an incident ID argument whose incident fetch succeeds with zero
incidents, the assigned-to option is a valid one, the handler prints "Currently there are no
alerts assigned to " followed by the option and exits with status 0 as its last two effects,
requests no alerts, never brings up the UI and returns no error. -/
theorem alertsHandler_no_incidents {Tbl : Type} (K : Constants) (kit : TableKit Tbl)
    (env : Env) (options : Options) (opts : ListIncidentsOptions)
    (hq : Event.getIncidents opts ∈ (alertsHandler K kit env options []).trace)
    (hnone : env.getIncidents opts = .ok []) :
    (options.assignment = "team" ∨ options.assignment = "silentTest" ∨
      options.assignment = "self") ∧
    (alertsHandler K kit env options []).outcome = .exited 0 ∧
    [Event.println ("Currently there are no alerts assigned to " ++ options.assignment),
      Event.exit 0] <:+ (alertsHandler K kit env options []).trace ∧
    alertRequests (alertsHandler K kit env options []).trace = [] ∧
    noUI (alertsHandler K kit env options []).trace := by
  obtain ⟨user, tui1, tui0, pre, _, _, hsw, hpre, hrun, hcol⟩ := reach_fetch K kit env options opts hq
  have hval : options.assignment = "team" ∨ options.assignment = "silentTest" ∨
      options.assignment = "self" := by
    rcases assignmentSwitch_ok K env options user _ tui1 tui0 pre opts hsw with
      ⟨h, _⟩ | ⟨h, _⟩ | ⟨h, _⟩
    · exact Or.inl h
    · exact Or.inr (Or.inl h)
    · exact Or.inr (Or.inr h)
  rw [hrun]
  refine ⟨hval, ?_, ?_, ?_, ?_⟩
  · simp [fetchAndShow, hnone]
  · simp only [fetchAndShow, hnone, List.length_nil, if_true]
    exact ⟨_, rfl⟩
  · rcases hpre with h | h <;> simp [fetchAndShow, hnone, h, alertRequests]
  · rcases hpre with h | h <;> simp [fetchAndShow, hnone, h, noUI, Event.isUI]

/-- C1 on a concrete run: default options, no incident matches. -/
theorem alertsHandler_no_incidents_witness :
    Event.getIncidents selfQuery ∈
      (alertsHandler upstreamConstants specKit envNoIncidents {} []).trace ∧
    envNoIncidents.getIncidents selfQuery = .ok [] ∧
    (alertsHandler upstreamConstants specKit envNoIncidents {} []).outcome = .exited 0 ∧
    (alertsHandler upstreamConstants specKit envNoIncidents {} []).trace =
      [Event.connect, Event.getCurrentUser, Event.getIncidents selfQuery,
        Event.println "Currently there are no alerts assigned to self", Event.exit 0] :=
  ⟨by decide, rfl,
    (alertsHandler_no_incidents upstreamConstants specKit envNoIncidents {} selfQuery
      (by decide) rfl).2.1,
    by decide⟩

/-- C2: in a run without an incident ID argument that issues the incident query, if that
fetch fails, or the alert fetch fails for some incident of the fetched list, the handler
returns the very error of the failing fetch (the incident fetch, or the first failing alert
fetch), never brings up the UI, issues the incident query once, and requests alerts exactly
for the incidents up to and including the first failing one, once per list entry. -/
theorem alertsHandler_fetch_error {Tbl : Type} (K : Constants) (kit : TableKit Tbl)
    (env : Env) (options : Options) (opts : ListIncidentsOptions)
    (hq : Event.getIncidents opts ∈ (alertsHandler K kit env options []).trace)
    (hfail : (∃ err, env.getIncidents opts = .error err) ∨
      (∃ incidents k inc err, env.getIncidents opts = .ok incidents ∧
        incidents[k]? = some inc ∧ env.getIncidentAlerts k inc = .error err)) :
    ∃ err, (alertsHandler K kit env options []).outcome = .returned (some err) ∧
      noUI (alertsHandler K kit env options []).trace ∧
      incidentQueries (alertsHandler K kit env options []).trace = [opts] ∧
      ((env.getIncidents opts = .error err ∧
          alertRequests (alertsHandler K kit env options []).trace = []) ∨
       (∃ incidents k inc, env.getIncidents opts = .ok incidents ∧
          incidents[k]? = some inc ∧ env.getIncidentAlerts k inc = .error err ∧
          (∀ i x, i < k → incidents[i]? = some x → ∃ al, env.getIncidentAlerts i x = .ok al) ∧
          alertRequests (alertsHandler K kit env options []).trace = incidents.take (k + 1) ∧
          ∀ x, (alertRequests (alertsHandler K kit env options []).trace).count x ≤
            incidents.count x)) := by
  obtain ⟨user, tui1, tui0, pre, _, _, hsw, hpre, hrun, hcol⟩ := reach_fetch K kit env options opts hq
  have hpreQ : incidentQueries pre = [] := by
    rcases hpre with h | h <;> simp [h, incidentQueries]
  have hpreA : alertRequests pre = [] := by
    rcases hpre with h | h <;> simp [h, alertRequests]
  have hpreU : noUI ([Event.connect, Event.getCurrentUser] ++ pre) := by
    rcases hpre with h | h <;> simp [h, noUI, Event.isUI]
  have hquery : incidentQueries (alertsHandler K kit env options []).trace = [opts] := by
    rw [hrun, fetchAndShow_queries, incidentQueries_append, hpreQ]
    simp [incidentQueries]
  refine Or.elim hfail ?_ ?_
  · rintro ⟨err, herr⟩
    refine ⟨err, ?_, ?_, hquery, Or.inl ⟨herr, ?_⟩⟩
    · rw [hrun]; simp [fetchAndShow, herr]
    · rw [hrun]
      simp only [fetchAndShow, herr]
      rw [noUI_append]
      exact ⟨hpreU, by simp [noUI, Event.isUI]⟩
    · rw [hrun]
      simp [fetchAndShow, herr, alertRequests_append, hpreA, alertRequests]
  · rintro ⟨incidents, k, inc, err, hinc, hk, herr⟩
    obtain ⟨j, y, e, hj, he, hbefore, hloop⟩ :=
      getAllAlerts_error env 0 incidents [] ⟨k, inc, err, hk, by simpa using herr⟩
    simp only [Nat.zero_add] at he hbefore
    have hne : incidents.length ≠ 0 := by
      intro h0
      rw [List.length_eq_zero] at h0
      subst h0
      simp at hk
    have hreq : alertRequests (alertsHandler K kit env options []).trace =
        incidents.take (j + 1) := by
      rw [hrun]
      simp [fetchAndShow, hinc, hne, hloop, alertRequests_append, hpreA, alertRequests,
        alertRequests_map, -List.map_take, -List.take_succ_cons]
    refine ⟨e, ?_, ?_, hquery, Or.inr ⟨incidents, j, y, hinc, hj, he, hbefore, hreq, ?_⟩⟩
    · rw [hrun]; simp [fetchAndShow, hinc, hne, hloop]
    · rw [hrun]
      simp only [fetchAndShow, hinc, hne, hloop, if_false]
      rw [noUI_append, noUI_append]
      exact ⟨⟨hpreU, by simp [noUI, Event.isUI]⟩, noUI_map _⟩
    · intro x
      rw [hreq]
      exact (List.take_sublist _ _).count_le x

/-- C2 on a concrete run: of three incidents the second alert fetch fails; its error is
returned, the third incident is never requested and the UI is never brought up. -/
theorem alertsHandler_fetch_error_witness :
    Event.getIncidents selfQuery ∈
      (alertsHandler upstreamConstants specKit envSecondAlertFetchFails {} []).trace ∧
    envSecondAlertFetchFails.getIncidents selfQuery = .ok [incident1, incident2, incident3] ∧
    envSecondAlertFetchFails.getIncidentAlerts 1 incident2 =
      .error ⟨"HTTP 429: rate limited"⟩ ∧
    (alertsHandler upstreamConstants specKit envSecondAlertFetchFails {} []).outcome =
      .returned (some ⟨"HTTP 429: rate limited"⟩) ∧
    alertRequests (alertsHandler upstreamConstants specKit envSecondAlertFetchFails {} []).trace =
      [incident1, incident2] ∧
    ∃ err, (alertsHandler upstreamConstants specKit envSecondAlertFetchFails {} []).outcome =
        .returned (some err) ∧
      noUI (alertsHandler upstreamConstants specKit envSecondAlertFetchFails {} []).trace :=
  ⟨by decide, rfl, rfl, by decide, by decide,
    (alertsHandler_fetch_error upstreamConstants specKit envSecondAlertFetchFails {} selfQuery
      (by decide)
      (Or.inr ⟨[incident1, incident2, incident3], 1, incident2, ⟨"HTTP 429: rate limited"⟩,
        rfl, rfl, rfl⟩)).imp (fun _ h => ⟨h.1, h.2.1⟩)⟩

/-- C3 fails as stated: with an incident ID argument the assigned-to option is never
examined. With the unknown option "everyone" and the argument "PXYZ123" the client connects,
the user is fetched, the alerts of the incident are fetched, the UI is brought up, and the
handler returns no error. -/
theorem alertsHandler_incident_arg_skips_assignment_check :
    envNoIncidents.connect = .ok () ∧
    envNoIncidents.getCurrentUser = .ok ⟨"PUSER01", "alice"⟩ ∧
    unknownOptions.assignment ≠ "team" ∧ unknownOptions.assignment ≠ "silentTest" ∧
    unknownOptions.assignment ≠ "self" ∧
    (alertsHandler upstreamConstants specKit envNoIncidents unknownOptions ["PXYZ123"]).trace =
      [Event.connect, Event.getCurrentUser, Event.getIncidentAlerts { Id := "PXYZ123" },
        Event.tuiInit, Event.initAlertsUI [alertA1] AlertsTableTitle AlertsPageTitle,
        Event.startApp] ∧
    (alertsHandler upstreamConstants specKit envNoIncidents unknownOptions ["PXYZ123"]).outcome =
      .returned none ∧
    ¬ noFetch
      (alertsHandler upstreamConstants specKit envNoIncidents unknownOptions ["PXYZ123"]).trace ∧
    ¬ noUI
      (alertsHandler upstreamConstants specKit envNoIncidents unknownOptions ["PXYZ123"]).trace := by
  refine ⟨rfl, rfl, by decide, by decide, by decide, by decide, by decide, ?_, ?_⟩
  · intro h
    have := h (Event.getIncidentAlerts { Id := "PXYZ123" }) (by decide)
    simp [Event.isFetch] at this
  · intro h
    have := h Event.tuiInit (by decide)
    simp [Event.isUI] at this

/-- C3 as amended: in a run without an incident ID argument in which the client connects
and the current user is fetched, an assigned-to option other than "team", "silentTest" and
"self" makes the handler return the error "please enter a valid assigned-to option" right
after the user fetch: no incident or alert data is fetched and the UI is never brought up. -/
theorem alertsHandler_invalid_assignment {Tbl : Type} (K : Constants) (kit : TableKit Tbl)
    (env : Env) (options : Options) (user : User)
    (hc : env.connect = .ok ()) (hu : env.getCurrentUser = .ok user)
    (h1 : options.assignment ≠ "team") (h2 : options.assignment ≠ "silentTest")
    (h3 : options.assignment ≠ "self") :
    (alertsHandler K kit env options []).outcome =
      .returned (some (Errorf "please enter a valid assigned-to option")) ∧
    (alertsHandler K kit env options []).trace = [Event.connect, Event.getCurrentUser] ∧
    noFetch (alertsHandler K kit env options []).trace ∧
    noUI (alertsHandler K kit env options []).trace := by
  have hrun : (alertsHandler K kit env options []).outcome =
        .returned (some (Errorf "please enter a valid assigned-to option")) ∧
      (alertsHandler K kit env options []).trace = [Event.connect, Event.getCurrentUser] := by
    simp [alertsHandler, hc, hu, assignmentSwitch, h1, h2, h3]
  refine ⟨hrun.1, hrun.2, ?_, ?_⟩
  · rw [hrun.2]; simp [noFetch, Event.isFetch]
  · rw [hrun.2]; simp [noUI, Event.isUI]

/-- C3 as amended, on a concrete run with the option "everyone". -/
theorem alertsHandler_invalid_assignment_witness :
    envNoIncidents.connect = .ok () ∧
    envNoIncidents.getCurrentUser = .ok ⟨"PUSER01", "alice"⟩ ∧
    unknownOptions.assignment ≠ "team" ∧ unknownOptions.assignment ≠ "silentTest" ∧
    unknownOptions.assignment ≠ "self" ∧
    (alertsHandler upstreamConstants specKit envNoIncidents unknownOptions []).outcome =
      .returned (some (Errorf "please enter a valid assigned-to option")) :=
  ⟨rfl, rfl, by decide, by decide, by decide,
    (alertsHandler_invalid_assignment upstreamConstants specKit envNoIncidents unknownOptions
      ⟨"PUSER01", "alice"⟩ rfl rfl (by decide) (by decide) (by decide)).1⟩

/-- C4: in a run without an incident ID argument, with assigned-to "team", that reaches the
configuration load: if the configuration loads with an empty TeamID the handler returns the
error "no team selected, please run 'kite teams' to set a team", and if the load fails it
returns that load error; in both cases nothing is fetched and the UI is never brought up. -/
theorem alertsHandler_team_config {Tbl : Type} (K : Constants) (kit : TableKit Tbl)
    (env : Env) (options : Options)
    (hteam : options.assignment = "team")
    (hload : Event.configLoad ∈ (alertsHandler K kit env options []).trace) :
    (∀ cfg, env.configLoad = .ok cfg → cfg.TeamID = "" →
      (alertsHandler K kit env options []).outcome =
        .returned (some (Errorf "no team selected, please run 'kite teams' to set a team")) ∧
      noFetch (alertsHandler K kit env options []).trace ∧
      noUI (alertsHandler K kit env options []).trace) ∧
    (∀ err, env.configLoad = .error err →
      (alertsHandler K kit env options []).outcome = .returned (some err) ∧
      noFetch (alertsHandler K kit env options []).trace ∧
      noUI (alertsHandler K kit env options []).trace) := by
  cases hc : env.connect with
  | error e => simp [alertsHandler, hc] at hload
  | ok u =>
    cases hu : env.getCurrentUser with
    | error e => simp [alertsHandler, hc, hu] at hload
    | ok user =>
      constructor
      · intro cfg hcfg hid
        simp [alertsHandler, hc, hu, assignmentSwitch, hteam, hcfg, hid, noFetch, noUI,
          Event.isFetch, Event.isUI]
      · intro err hcfg
        simp [alertsHandler, hc, hu, assignmentSwitch, hteam, hcfg, noFetch, noUI,
          Event.isFetch, Event.isUI]

/-- C4 on a concrete run: the configuration loads without a team. -/
theorem alertsHandler_team_config_witness :
    teamOptions.assignment = "team" ∧
    Event.configLoad ∈ (alertsHandler upstreamConstants specKit envNoTeam teamOptions []).trace ∧
    envNoTeam.configLoad = .ok ⟨"", ""⟩ ∧
    (alertsHandler upstreamConstants specKit envNoTeam teamOptions []).outcome =
      .returned (some (Errorf "no team selected, please run 'kite teams' to set a team")) ∧
    (alertsHandler upstreamConstants specKit envNoTeam teamOptions []).trace =
      [Event.connect, Event.getCurrentUser, Event.configLoad] :=
  ⟨rfl, by decide, rfl,
    ((alertsHandler_team_config upstreamConstants specKit envNoTeam teamOptions rfl
      (by decide)).1 ⟨"", ""⟩ rfl rfl).1,
    by decide⟩

/-- C7 fails on the code: with the default options (assigned-to "self", no incident ID
argument) and the upstream constants, the one incident query the handler issues has
Urgencies = [low, high]: it is not [high], and it holds the low urgency. -/
theorem alertsHandler_default_query_includes_low :
    ({} : Options).assignment = "self" ∧
    incidentQueries (alertsHandler upstreamConstants specKit envTwoIncidents {} []).trace =
      [selfQuery] ∧
    selfQuery.Urgencies = [upstreamConstants.StatusLow, upstreamConstants.StatusHigh] ∧
    selfQuery.Urgencies ≠ [upstreamConstants.StatusHigh] ∧
    upstreamConstants.StatusLow ∈ selfQuery.Urgencies := by
  decide

/-- C8: in a run without an incident ID argument that reaches the incident fetch, the
assigned-to option is one of the three valid ones and fixes the assignment target and the
status set of the query: "self" gives UserIDs = [ID of the current user], no TeamIDs and
Statuses = [acknowledged]; "silentTest" gives UserIDs = [SilentTest], no TeamIDs and
Statuses = [triggered, acknowledged]; "team" gives TeamIDs = [configured team ID], no UserIDs
and Statuses = [triggered, acknowledged]. -/
theorem alertsHandler_query_by_assignment {Tbl : Type} (K : Constants) (kit : TableKit Tbl)
    (env : Env) (options : Options) (opts : ListIncidentsOptions)
    (hq : Event.getIncidents opts ∈ (alertsHandler K kit env options []).trace) :
    (options.assignment = "self" ∨ options.assignment = "silentTest" ∨
      options.assignment = "team") ∧
    (options.assignment = "self" →
      ∃ user, env.getCurrentUser = .ok user ∧ opts.UserIDs = [user.ID] ∧ opts.TeamIDs = [] ∧
        opts.Statuses = [K.StatusAcknowledged]) ∧
    (options.assignment = "silentTest" →
      opts.UserIDs = [K.SilentTest] ∧ opts.TeamIDs = [] ∧
        opts.Statuses = [K.StatusTriggered, K.StatusAcknowledged]) ∧
    (options.assignment = "team" →
      ∃ cfg, env.configLoad = .ok cfg ∧ opts.TeamIDs = [cfg.TeamID] ∧ opts.UserIDs = [] ∧
        opts.Statuses = [K.StatusTriggered, K.StatusAcknowledged]) := by
  obtain ⟨user, tui1, tui0, pre, _, hu, hsw, _, _⟩ := reach_fetch K kit env options opts hq
  have hts : ("team" : String) ≠ "silentTest" := by decide
  have htf : ("team" : String) ≠ "self" := by decide
  have hsf : ("silentTest" : String) ≠ "self" := by decide
  rcases assignmentSwitch_ok K env options user _ tui1 tui0 pre opts hsw with
    ⟨ha, cfg, hcfg, _, h⟩ | ⟨ha, h⟩ | ⟨ha, h⟩
  · subst h
    refine ⟨Or.inr (Or.inr ha), ?_, ?_, ?_⟩
    · intro h; rw [ha] at h; exact absurd h htf
    · intro h; rw [ha] at h; exact absurd h hts
    · intro _; exact ⟨cfg, hcfg, rfl, rfl, rfl⟩
  · subst h
    refine ⟨Or.inr (Or.inl ha), ?_, ?_, ?_⟩
    · intro h; rw [ha] at h; exact absurd h hsf
    · intro _; exact ⟨rfl, rfl, rfl⟩
    · intro h; rw [ha] at h; exact absurd h.symm hts
  · subst h
    refine ⟨Or.inl ha, ?_, ?_, ?_⟩
    · intro _; exact ⟨user, hu, rfl, rfl, rfl⟩
    · intro h; rw [ha] at h; exact absurd h.symm hsf
    · intro h; rw [ha] at h; exact absurd h.symm htf

/-- C8 on a concrete run with the team option: the query holds the configured team, no user,
and both statuses. -/
theorem alertsHandler_query_by_assignment_witness :
    Event.getIncidents teamQuery ∈
      (alertsHandler upstreamConstants specKit envNoIncidents teamOptions []).trace ∧
    ∃ cfg, envNoIncidents.configLoad = .ok cfg ∧ teamQuery.TeamIDs = [cfg.TeamID] ∧
      teamQuery.UserIDs = [] ∧
      teamQuery.Statuses = [upstreamConstants.StatusTriggered,
        upstreamConstants.StatusAcknowledged] :=
  ⟨by decide,
    (alertsHandler_query_by_assignment upstreamConstants specKit envNoIncidents teamOptions
      teamQuery (by decide)).2.2.2 rfl⟩

theorem length_concatFetched (env : Env) (k : Nat) (l : List Incident) :
    (concatFetched env k l).length = (fetchedCounts env k l).sum := by
  induction l generalizing k with
  | nil => rfl
  | cons inc rest ih => simp [concatFetched, fetchedCounts, ih]

/-- C9: in a run without an incident ID argument whose incident fetch returns a non-empty
list and whose alert fetches all succeed, every incident is requested once, in order; the
one alert list handed to `InitAlertsUI` is the concatenation, in incident order, of the alerts
fetched per incident (nothing dropped, duplicated or reordered): the final `tui` is the
result of `InitAlertsUI` on exactly that list, so the table it holds, which is the one page
of the UI, is built from the projection of that list onto the chosen columns; and
`tui.FetchedAlerts` is the decimal rendering of the length of that list, which is the sum of
the per-incident alert counts. -/
theorem alertsHandler_alerts_concat {Tbl : Type} (K : Constants) (kit : TableKit Tbl)
    (env : Env) (options : Options) (opts : ListIncidentsOptions) (incidents : List Incident)
    (hq : Event.getIncidents opts ∈ (alertsHandler K kit env options []).trace)
    (hinc : env.getIncidents opts = .ok incidents) (hne : incidents ≠ [])
    (hall : ∀ k inc, incidents[k]? = some inc → ∃ al, env.getIncidentAlerts k inc = .ok al) :
    alertRequests (alertsHandler K kit env options []).trace = incidents ∧
    Event.initAlertsUI (concatFetched env 0 incidents) AlertsTableTitle AlertsPageTitle ∈
      (alertsHandler K kit env options []).trace ∧
    (∀ al tt pt, Event.initAlertsUI al tt pt ∈ (alertsHandler K kit env options []).trace →
      al = concatFetched env 0 incidents) ∧
    (alertsHandler K kit env options []).tui.FetchedAlerts =
      Itoa (concatFetched env 0 incidents).length ∧
    (alertsHandler K kit env options []).tui.FetchedAlerts =
      Itoa (fetchedCounts env 0 incidents).sum ∧
    (∃ t : TUI Tbl, t.Columns = options.columns ∧
      (alertsHandler K kit env options []).tui =
        ((t.Init.InitAlertsUI kit (concatFetched env 0 incidents) AlertsTableTitle
          AlertsPageTitle).StartApp env.runApp).1) ∧
    (alertsHandler K kit env options []).tui.Table =
      some (kit.InitTable
        (kit.GetTableData (concatFetched env 0 incidents) options.columns).1
        (kit.GetTableData (concatFetched env 0 incidents) options.columns).2
        true false AlertsTableTitle) ∧
    (alertsHandler K kit env options []).tui.Pages =
      [⟨AlertsPageTitle,
        kit.InitTable
          (kit.GetTableData (concatFetched env 0 incidents) options.columns).1
          (kit.GetTableData (concatFetched env 0 incidents) options.columns).2
          true false AlertsTableTitle,
        true, true⟩] := by
  obtain ⟨user, tui1, tui0, pre, _, _, hsw, hpre, hrun, hcol⟩ :=
    reach_fetch K kit env options opts hq
  have hloop := getAllAlerts_ok env 0 incidents [] (by simpa using hall)
  have hlen : incidents.length ≠ 0 := by
    intro h0; exact hne (List.length_eq_zero.1 h0)
  have hpreA : alertRequests pre = [] := by
    rcases hpre with h | h <;> simp [h, alertRequests]
  have hAT : AlertsPageTitle ≠ TrigerredAlertsPageTitle := by decide
  have hshape : ∃ t : TUI Tbl, t.Columns = options.columns ∧
      t.FetchedAlerts = Itoa (concatFetched env 0 incidents).length ∧
      (alertsHandler K kit env options []).tui =
        ((t.Init.InitAlertsUI kit (concatFetched env 0 incidents) AlertsTableTitle
          AlertsPageTitle).StartApp env.runApp).1 := by
    rw [hrun]
    simp only [fetchAndShow, hinc, hlen, hloop, if_false, List.nil_append, showAlerts]
    split
    · exact ⟨{ tui0 with FetchedAlerts := Itoa (concatFetched env 0 incidents).length,
                         IncidentOpts := opts, HasEmulator := true }, hcol, rfl, rfl⟩
    · exact ⟨{ tui0 with FetchedAlerts := Itoa (concatFetched env 0 incidents).length,
                         IncidentOpts := opts }, hcol, rfl, rfl⟩
  obtain ⟨t, htcol, htf, ht⟩ := hshape
  have htable : (((t.Init.InitAlertsUI kit (concatFetched env 0 incidents) AlertsTableTitle
        AlertsPageTitle).StartApp env.runApp).1).Table =
      some (kit.InitTable
        (kit.GetTableData (concatFetched env 0 incidents) options.columns).1
        (kit.GetTableData (concatFetched env 0 incidents) options.columns).2
        true false AlertsTableTitle) := by
    simp only [TUI.StartApp, TUI.initFooter, TUI.InitAlertsUI, TUI.Init, hAT, if_false, ← htcol]
    split <;> split <;> rfl
  have hpages : (((t.Init.InitAlertsUI kit (concatFetched env 0 incidents) AlertsTableTitle
        AlertsPageTitle).StartApp env.runApp).1).Pages =
      [⟨AlertsPageTitle,
        kit.InitTable
          (kit.GetTableData (concatFetched env 0 incidents) options.columns).1
          (kit.GetTableData (concatFetched env 0 incidents) options.columns).2
          true false AlertsTableTitle,
        true, true⟩] := by
    simp only [TUI.StartApp, TUI.initFooter, TUI.InitAlertsUI, TUI.Init, hAT, if_false, ← htcol,
      AddPage, removePage, List.nil_append]
    split <;> split <;> rfl
  have hfetched : (alertsHandler K kit env options []).tui.FetchedAlerts =
      Itoa (concatFetched env 0 incidents).length := by
    rw [ht, ← htf]
    simp only [TUI.StartApp, TUI.initFooter, TUI.InitAlertsUI, TUI.Init]
    split <;> split <;> split <;> rfl
  refine ⟨?_, ?_, ?_, hfetched, ?_, ⟨t, htcol, ht⟩, ?_, ?_⟩
  · rw [hrun]
    simp [fetchAndShow, hinc, hlen, hloop, showAlerts, alertRequests_append, hpreA,
      alertRequests, alertRequests_map]
  · rw [hrun]
    simp [fetchAndShow, hinc, hlen, hloop, showAlerts]
  · intro al tt pt hmem
    rw [hrun] at hmem
    rcases hpre with h | h
    · simp [fetchAndShow, hinc, hlen, hloop, showAlerts, h] at hmem
      exact hmem.1
    · simp [fetchAndShow, hinc, hlen, hloop, showAlerts, h] at hmem
      exact hmem.1
  · rw [hfetched, length_concatFetched]
  · rw [ht]; exact htable
  · rw [ht]; exact hpages

/-- C9 on a concrete run: two incidents with two alerts and one alert give the three alerts
in incident order, the table of the one UI page shows exactly their three rows, and the
count is "3". -/
theorem alertsHandler_alerts_concat_witness :
    Event.getIncidents selfQuery ∈
      (alertsHandler upstreamConstants specKit envTwoIncidents {} []).trace ∧
    envTwoIncidents.getIncidents selfQuery = .ok [incident1, incident2] ∧
    concatFetched envTwoIncidents 0 [incident1, incident2] = [alertA1, alertA2, alertB1] ∧
    Event.initAlertsUI (concatFetched envTwoIncidents 0 [incident1, incident2])
        AlertsTableTitle AlertsPageTitle ∈
      (alertsHandler upstreamConstants specKit envTwoIncidents {} []).trace ∧
    (alertsHandler upstreamConstants specKit envTwoIncidents {} []).tui.FetchedAlerts = "3" ∧
    (alertsHandler upstreamConstants specKit envTwoIncidents {} []).tui.Table =
      some ⟨["INCIDENT ID", "ALERT ID", "ALERT"],
        [["PINC001", "A1", "KubeNodeNotReady"], ["PINC001", "A2", "KubeAPIDown"],
          ["PINC002", "B1", "etcdMembersDown"]],
        true, false, AlertsTableTitle⟩ ∧
    (alertsHandler upstreamConstants specKit envTwoIncidents {} []).tui.Table =
      some (specKit.InitTable
        (specKit.GetTableData (concatFetched envTwoIncidents 0 [incident1, incident2])
          ({} : Options).columns).1
        (specKit.GetTableData (concatFetched envTwoIncidents 0 [incident1, incident2])
          ({} : Options).columns).2
        true false AlertsTableTitle) :=
  ⟨by decide, rfl, by decide,
    (alertsHandler_alerts_concat upstreamConstants specKit envTwoIncidents {} selfQuery
      [incident1, incident2] (by decide) rfl (by decide)
      (fun k inc hk => by
        by_cases h : inc.Id = "PINC001"
        · exact ⟨_, if_pos h⟩
        · exact ⟨_, if_neg h⟩)).2.1,
    by decide, by decide,
    (alertsHandler_alerts_concat upstreamConstants specKit envTwoIncidents {} selfQuery
      [incident1, incident2] (by decide) rfl (by decide)
      (fun k inc hk => by
        by_cases h : inc.Id = "PINC001"
        · exact ⟨_, if_pos h⟩
        · exact ⟨_, if_neg h⟩)).2.2.2.2.2.2.1⟩

end Kite
